import Mathlib

/-!
Shallow embedding of `authena_python_sdk/client_user.py` (class `ClientUser`).

JSON values and Python dictionaries are modelled by the inductive type `Json`;
Python subscripting (`d[k]`) is `Json.subscript`, which returns `KeyError` for a
missing key of an object and `TypeError` for subscripting a non-object, mirroring
Python semantics.  The injected HTTP transport is modelled as an oracle
`server : Request → Json` giving the JSON body answered to each request; each
client method is a function of that oracle.  Exceptions raised by a method are
the `Except.error` results of type `PyExc`.
-/

namespace Authena

/-- JSON values, doubling as the Python values handled by the client
(Python `None` is `null`, Python dicts are `obj` association lists in
insertion order). -/
inductive Json where
  | null
  | bool (b : Bool)
  | str (s : String)
  | num (n : Int)
  | arr (elems : List Json)
  | obj (entries : List (String × Json))
deriving Repr

/-- Python exceptions that the embedded methods can raise. -/
inductive PyExc where
  | keyError (key : String)
  | typeError
  | attributeError
  | valueError (msg : String)
deriving Repr, DecidableEq

/-- First-match lookup in an association list (Python dict access on our
insertion-ordered model). -/
def lookupEntry : List (String × Json) → String → Option Json
  | [], _ => none
  | (k, v) :: rest, key => if k = key then some v else lookupEntry rest key

/-- Python subscripting `value[key]` with a string key: a `KeyError` when the
key is absent from a dict, a `TypeError` on any non-dict value. -/
def Json.subscript : Json → String → Except PyExc Json
  | .obj entries, key =>
      match lookupEntry entries key with
      | some v => .ok v
      | none => .error (.keyError key)
  | _, _ => .error .typeError

/-- Python truthiness (`bool(x)`): `None`, `False`, `0`, empty string, empty
list and empty dict are falsy. -/
def pyTruthy : Json → Bool
  | .null => false
  | .bool b => b
  | .str s => !s.isEmpty
  | .num n => n != 0
  | .arr elems => !elems.isEmpty
  | .obj entries => !entries.isEmpty

/-- An HTTP request as built by `ClientUser`: path, method, JSON body
(for POST/PUT/DELETE calls) and query fields (for GET calls). -/
structure Request where
  path : String
  method : String
  body : List (String × Json) := []
  fields : List (String × Json) := []
deriving Repr

/-- Modelled from the spec: the class `User` of
`authena_python_sdk/models/user.py` is not part of the excerpt.  Per spec §3 a
`User` carries username, preferred_username, email, first_name, last_name,
group_ids, permissions, an is_active flag and an optional tmp_password; the
constructor keeps the caller-supplied Python values unchanged and fields not
supplied default to `None` (`Json.null`). -/
structure User where
  username : Json
  preferred_username : Json
  email : Json
  first_name : Json
  last_name : Json
  group_ids : Json := Json.null
  permissions : Json := Json.null
  is_active : Json := Json.null
  tmp_password : Json := Json.null
deriving Repr

/-- Modelled from the spec: the class `Token` of
`authena_python_sdk/models/token.py` is not part of the excerpt.  Per spec §3 a
`Token` is an immutable opaque bag of authentication fields (access_token,
refresh_token, expiry metadata); `Token(**d)` constructs it from the entries of
the dict `d`. -/
structure Token where
  entries : List (String × Json)
deriving Repr

/-- Encoding of an optional Python string argument (`None` becomes `null`). -/
def optStr : Option String → Json
  | some s => .str s
  | none => .null

/-- Encoding of an optional Python bool argument. -/
def optBool : Option Bool → Json
  | some b => .bool b
  | none => .null

/-- Encoding of an optional Python list-of-strings argument. -/
def optStrList : Option (List String) → Json
  | some xs => .arr (xs.map .str)
  | none => .null

/-! ## `ClientUser.get` -/

/-- The request built by `ClientUser.get`. -/
def get_req (username : String) : Request :=
  { path := "/user/get", method := "GET", fields := [("username", .str username)] }

/-- `ClientUser.get`: issues `get_req`, then builds a `User` from the response
JSON, subscripting the keys in the source's evaluation order. -/
def get (server : Request → Json) (username : String) : Except PyExc User := do
  let user_json := server (get_req username)
  let g ← user_json.subscript "group_ids"
  let un ← user_json.subscript "username"
  let pu ← user_json.subscript "preferred_username"
  let em ← user_json.subscript "email"
  let fn ← user_json.subscript "first_name"
  let ln ← user_json.subscript "last_name"
  let pm ← user_json.subscript "permissions"
  let ia ← user_json.subscript "is_active"
  return { group_ids := g, username := un, preferred_username := pu, email := em,
           first_name := fn, last_name := ln, permissions := pm, is_active := ia }

/-! ## `ClientUser.create` -/

/-- The body dict built by `ClientUser.create`: all seven keys are always
present, optional arguments not supplied appear as `null`. -/
def create_body (email preferred_username first_name last_name : String)
    (username : Option String) (group_ids permissions : Option (List String)) :
    List (String × Json) :=
  [("username", optStr username),
   ("group_ids", optStrList group_ids),
   ("email", .str email),
   ("preferred_username", .str preferred_username),
   ("first_name", .str first_name),
   ("last_name", .str last_name),
   ("permissions", optStrList permissions)]

/-- The request built by `ClientUser.create`. -/
def create_req (email preferred_username first_name last_name : String)
    (username : Option String) (group_ids permissions : Option (List String)) : Request :=
  { path := "/user/create", method := "POST",
    body := create_body email preferred_username first_name last_name username group_ids permissions }

/-- `ClientUser.create`: issues `create_req`, then returns a `User` whose
`username` and `tmp_password` come from the response JSON while every other
field is the caller-supplied argument. -/
def create (server : Request → Json) (email preferred_username first_name last_name : String)
    (username : Option String) (group_ids permissions : Option (List String)) :
    Except PyExc User := do
  let user_json := server (create_req email preferred_username first_name last_name username group_ids permissions)
  let un ← user_json.subscript "username"
  let tp ← user_json.subscript "tmp_password"
  return { group_ids := optStrList group_ids, username := un,
           preferred_username := .str preferred_username, email := .str email,
           first_name := .str first_name, last_name := .str last_name,
           tmp_password := tp, permissions := optStrList permissions }

/-! ## `ClientUser.update` -/

/-- Drops the entries whose value is `null`: the dict comprehension
`{key: value for key, value in body.items() if value is not None}`. -/
def dropNullValues (entries : List (String × Json)) : List (String × Json) :=
  entries.filter fun kv =>
    match kv.2 with
    | .null => false
    | _ => true

/-- The body dict built by `ClientUser.update`: the full seven-key dict
(username plus the six optional fields) filtered through `dropNullValues`. -/
def update_body (username : String) (email preferred_username first_name last_name : Option String)
    (group_ids permissions : Option (List String)) : List (String × Json) :=
  dropNullValues
    [("username", .str username),
     ("email", optStr email),
     ("preferred_username", optStr preferred_username),
     ("first_name", optStr first_name),
     ("last_name", optStr last_name),
     ("group_ids", optStrList group_ids),
     ("permissions", optStrList permissions)]

/-- The request built by `ClientUser.update`. -/
def update_req (username : String) (email preferred_username first_name last_name : Option String)
    (group_ids permissions : Option (List String)) : Request :=
  { path := "/user/update", method := "PUT",
    body := update_body username email preferred_username first_name last_name group_ids permissions }

/-! ## `ClientUser.filter` -/

/-- The query-field tuple list built by `ClientUser.filter`: the two scalar
filters (possibly `null`) followed by one `("username", u)` tuple per element
of `usernames or []`. -/
def filter_fields (group_id : Option String) (usernames : Option (List String))
    (is_active : Option Bool) : List (String × Json) :=
  ("group_id", optStr group_id) ::
  ("is_active", optBool is_active) ::
  (usernames.getD []).map fun u => ("username", Json.str u)

/-- Modelled from the spec: the query serialization of the HTTP layer
(`authena_python_sdk/client_base.py`, not part of the excerpt).  Per spec §6 the
`/user/filter` wire query is `group_id?, is_active?, repeated username`, i.e.
optional parameters that were not set are omitted, so unset (`null`-valued)
fields are dropped from the sent query. -/
def sent_query_fields (fields : List (String × Json)) : List (String × Json) :=
  dropNullValues fields

/-- The request built by `ClientUser.filter` (query fields as serialized on
the wire). -/
def filter_req (group_id : Option String) (usernames : Option (List String))
    (is_active : Option Bool) : Request :=
  { path := "/user/filter", method := "GET",
    fields := sent_query_fields (filter_fields group_id usernames is_active) }

/-- The loop body of `ClientUser.filter`: each response entry
`username ↦ user_dict` becomes `username ↦ User(...)` with only group_ids and
the identity fields populated; permissions, is_active and tmp_password are
never passed to the constructor. -/
def filter_parse_entries : List (String × Json) → Except PyExc (List (String × User))
  | [] => .ok []
  | (username, user_dict) :: rest => do
    let g ← user_dict.subscript "group_ids"
    let un ← user_dict.subscript "username"
    let pu ← user_dict.subscript "preferred_username"
    let em ← user_dict.subscript "email"
    let fn ← user_dict.subscript "first_name"
    let ln ← user_dict.subscript "last_name"
    let users ← filter_parse_entries rest
    return (username, { group_ids := g, username := un, preferred_username := pu,
                        email := em, first_name := fn, last_name := ln }) :: users

/-- Parsing of the `/user/filter` response: iterates `.items()` of the
response dict (an `AttributeError` on a non-dict response). -/
def filter_parse (response_body_json : Json) : Except PyExc (List (String × User)) :=
  match response_body_json with
  | .obj entries => filter_parse_entries entries
  | _ => .error .attributeError

/-- `ClientUser.filter`: issues `filter_req` and parses the response into a
username-keyed mapping of partial `User`s. -/
def filter (server : Request → Json) (group_id : Option String)
    (usernames : Option (List String)) (is_active : Option Bool) :
    Except PyExc (List (String × User)) :=
  filter_parse (server (filter_req group_id usernames is_active))

/-! ## `ClientUser.confirm` -/

/-- The `/token/create` request built by `ClientUser.confirm` and
`ClientUser.create_token`. -/
def token_create_req (username password : String) : Request :=
  { path := "/token/create", method := "POST",
    body := [("username", .str username), ("password", .str password)] }

/-- The `/token/challenge` request built by `ClientUser.confirm` when the
first response signals a challenge. -/
def challenge_req (challenge_name challenge_session : Json)
    (username new_password : String) : Request :=
  { path := "/token/challenge", method := "POST",
    body := [("challenge_name", challenge_name),
             ("challenge_session", challenge_session),
             ("challenge_response",
              .obj [("USERNAME", .str username), ("NEW_PASSWORD", .str new_password)])] }

/-- The guarded extraction `token_json['authentication']['access_token']` with
`except (KeyError, ValueError): access_token = None`: a caught exception yields
`none`, any other exception (a `TypeError` from subscripting a non-dict)
propagates. -/
def extract_access_token (token_json : Json) : Except PyExc (Option Json) :=
  match token_json.subscript "authentication" with
  | .error (.keyError _) => .ok none
  | .error (.valueError _) => .ok none
  | .error e => .error e
  | .ok auth =>
    match auth.subscript "access_token" with
    | .error (.keyError _) => .ok none
    | .error (.valueError _) => .ok none
    | .error e => .error e
    | .ok v => .ok (some v)

/-- The message of the `ValueError` raised by `ClientUser.confirm` when no
access token results. -/
def confirm_fail_msg : String :=
  "Something went wrong. Access token was not created, hence, the new user probably was not confirmed. Please try again, or contact administrators."

/-- The tail of `ClientUser.confirm`: extract the access token from the final
token JSON and raise the confirmation-failure `ValueError` when it is absent
or falsy (`if not access_token`). -/
def confirm_check (token_json : Json) : Except PyExc Unit :=
  match extract_access_token token_json with
  | .error e => .error e
  | .ok access_token =>
    if pyTruthy (access_token.getD .null) then .ok ()
    else .error (.valueError confirm_fail_msg)

/-- `ClientUser.confirm`, returning both the list of requests issued (in
order) and the outcome.  The challenge branch is taken exactly when the first
response's `is_challenge` is the literal `True` (`is True`); the challenge
body's subscripts are evaluated before the second request is issued. -/
def confirm_run (server : Request → Json) (username tmp_password new_password : String) :
    List Request × Except PyExc Unit :=
  let r1 := token_create_req username tmp_password
  let token_json := server r1
  match token_json.subscript "is_challenge" with
  | .error e => ([r1], .error e)
  | .ok (.bool true) =>
    match token_json.subscript "challenge" with
    | .error e => ([r1], .error e)
    | .ok challenge =>
      match challenge.subscript "challenge_name" with
      | .error e => ([r1], .error e)
      | .ok cname =>
        match challenge.subscript "session" with
        | .error e => ([r1], .error e)
        | .ok csession =>
          let r2 := challenge_req cname csession username new_password
          ([r1, r2], confirm_check (server r2))
  | .ok _ => ([r1], confirm_check token_json)

/-- The final token JSON on which `ClientUser.confirm` runs its access-token
check: the first response when no challenge was signalled, the challenge
response otherwise; `error` when an exception is raised before that point. -/
def confirm_final_json (server : Request → Json) (username tmp_password new_password : String) :
    Except PyExc Json :=
  let token_json := server (token_create_req username tmp_password)
  match token_json.subscript "is_challenge" with
  | .error e => .error e
  | .ok (.bool true) =>
    match token_json.subscript "challenge" with
    | .error e => .error e
    | .ok challenge =>
      match challenge.subscript "challenge_name" with
      | .error e => .error e
      | .ok cname =>
        match challenge.subscript "session" with
        | .error e => .error e
        | .ok csession => .ok (server (challenge_req cname csession username new_password))
  | .ok _ => .ok token_json

/-! ## `ClientUser.create_token` -/

/-- The message of the `ValueError` raised by `ClientUser.create_token` on an
unconfirmed account (the rendered f-string, with `ClientUser.__name__` and
`ClientUser.confirm.__name__` substituted). -/
def token_unconfirmed_msg : String :=
  "User was not confirmed. Please confirm user first, before creating tokens. Hint: to confirm user, call \"ClientUser.confirm\" method."

/-- `ClientUser.create_token`: issues `token_create_req`; raises the
unconfirmed-user `ValueError` when the response's `is_challenge` is the
literal `True`, otherwise returns `Token(**token_json['authentication'])`. -/
def create_token (server : Request → Json) (username password : String) :
    Except PyExc Token :=
  let token_json := server (token_create_req username password)
  match token_json.subscript "is_challenge" with
  | .error e => .error e
  | .ok (.bool true) => .error (.valueError token_unconfirmed_msg)
  | .ok _ =>
    match token_json.subscript "authentication" with
    | .error e => .error e
    | .ok (.obj entries) => .ok ⟨entries⟩
    | .ok _ => .error .typeError

/-- The final token JSON of a `confirm` flow contains an access token when the
subscript chain `['authentication']['access_token']` reaches a truthy value. -/
def has_access_token (token_json : Json) : Prop :=
  ∃ v, extract_access_token token_json = .ok (some v) ∧ pyTruthy v = true

/-! ## Auxiliary definitions for stating the theorems -/

/-- A single optional entry: empty when the value is `null`, the one-entry
list otherwise.  Used to state which keys survive `dropNullValues`. -/
def optEntry (key : String) (v : Json) : List (String × Json) :=
  match v with
  | .null => []
  | _ => [(key, v)]

/-- A concrete server answering every request with `is_challenge = true`
(an unconfirmed account). -/
def serverChallenge : Request → Json :=
  fun _ => .obj [("is_challenge", .bool true)]

/-- A concrete valid token response. -/
def tokenResponse : Json :=
  .obj [("is_challenge", .bool false),
        ("authentication", .obj [("access_token", .str "tok"), ("refresh_token", .str "ref")])]

/-- A concrete server answering every request with a valid token response. -/
def serverToken : Request → Json :=
  fun _ => tokenResponse

/-- A concrete response with `is_challenge = false` and no authentication
object. -/
def noAuthResponse : Json :=
  .obj [("is_challenge", .bool false)]

/-- A concrete server answering every request with `noAuthResponse`. -/
def serverNoAuth : Request → Json :=
  fun _ => noAuthResponse

/-- A concrete server answering every request with a created user's JSON. -/
def serverCreated : Request → Json :=
  fun _ => .obj [("username", .str "gen-john"), ("tmp_password", .str "tmp123")]

/-- A concrete server for the create-then-get round trip: `/user/create` is
answered with the generated username and temporary password, `/user/get`
with the stored user record. -/
def serverRoundTrip : Request → Json := fun r =>
  if r.path = "/user/create" then
    .obj [("username", .str "john"), ("tmp_password", .str "tmp123")]
  else
    .obj [("group_ids", .arr [.str "g1"]), ("username", .str "john"),
          ("preferred_username", .str "jd"), ("email", .str "jd@example.com"),
          ("first_name", .str "John"), ("last_name", .str "Doe"),
          ("permissions", .arr []), ("is_active", .bool true)]

/-- A concrete `/user/filter` response with a single user entry. -/
def filterResponse : Json :=
  .obj [("jdoe", .obj [("group_ids", .arr []), ("username", .str "jdoe"),
                       ("preferred_username", .str "jd"), ("email", .str "jd@example.com"),
                       ("first_name", .str "John"), ("last_name", .str "Doe")])]

/-- The partial `User` parsed from the single entry of `filterResponse`. -/
def userJdoe : User :=
  { group_ids := .arr [], username := .str "jdoe", preferred_username := .str "jd",
    email := .str "jd@example.com", first_name := .str "John", last_name := .str "Doe" }

/-- The mapping parsed from `filterResponse`. -/
def filterUsers : List (String × User) := [("jdoe", userJdoe)]

/-! ## Theorems -/

theorem dropNullValues_username_map (us : List String) :
    dropNullValues (us.map fun u => ("username", Json.str u)) =
      us.map fun u => ("username", Json.str u) := by
  induction us with
  | nil => rfl
  | cons u rest ih => simp only [List.map_cons, dropNullValues, List.filter_cons] at ih ⊢; simp [ih]

theorem filter_keeps_username_entries (us : List String) :
    ((us.map fun u => (("username", Json.str u) : String × Json)).filter fun kv => kv.1 == "username") =
      us.map fun u => ("username", Json.str u) := by
  induction us with
  | nil => rfl
  | cons u rest ih => simp [List.filter_cons, ih]

/-- C3 (counterexample): `update` with all optional fields `None` does not
send an empty body: for username `"john.doe"` the body is exactly
`{"username": "john.doe"}`, which is nonempty. -/
theorem update_all_none_body_not_empty :
    update_body "john.doe" none none none none none none = [("username", Json.str "john.doe")] ∧
    update_body "john.doe" none none none none none none ≠ [] := by
  refine ⟨rfl, fun h => ?_⟩
  simp [update_body, dropNullValues] at h

/-- C3 (amended): the body sent by `update` is the `username` key (always
present, since `username` is a required non-null argument) followed by exactly
the non-null subset of the six optional fields; in particular with all
optional fields `None` the body is exactly `{"username": username}`, never
empty. -/
theorem update_body_username_plus_non_null (username : String)
    (email preferred_username first_name last_name : Option String)
    (group_ids permissions : Option (List String)) :
    update_body username email preferred_username first_name last_name group_ids permissions =
      ("username", Json.str username) ::
        (optEntry "email" (optStr email) ++
         optEntry "preferred_username" (optStr preferred_username) ++
         optEntry "first_name" (optStr first_name) ++
         optEntry "last_name" (optStr last_name) ++
         optEntry "group_ids" (optStrList group_ids) ++
         optEntry "permissions" (optStrList permissions)) := by
  cases email <;> cases preferred_username <;> cases first_name <;> cases last_name <;>
    cases group_ids <;> cases permissions <;> rfl

/-- C8: the body of the `POST /user/create` request always contains all seven
keys in source order, and the optional arguments that were not supplied appear
with value `null` (no omission of `None`-valued fields, unlike `update`). -/
theorem create_body_all_keys (email preferred_username first_name last_name : String)
    (username : Option String) (group_ids permissions : Option (List String)) :
    (create_body email preferred_username first_name last_name username group_ids permissions).map Prod.fst =
      ["username", "group_ids", "email", "preferred_username", "first_name", "last_name", "permissions"] ∧
    (username = none →
      lookupEntry (create_body email preferred_username first_name last_name username group_ids permissions) "username" =
        some Json.null) ∧
    (group_ids = none →
      lookupEntry (create_body email preferred_username first_name last_name username group_ids permissions) "group_ids" =
        some Json.null) ∧
    (permissions = none →
      lookupEntry (create_body email preferred_username first_name last_name username group_ids permissions) "permissions" =
        some Json.null) := by
  refine ⟨rfl, ?_, ?_, ?_⟩ <;> intro h <;> subst h <;> rfl

/-- C8 (witness): evaluation at a concrete call with no optional arguments. -/
theorem create_body_all_keys_witness :
    (create_body "jd@example.com" "jd" "John" "Doe" none none none).map Prod.fst =
      ["username", "group_ids", "email", "preferred_username", "first_name", "last_name", "permissions"] ∧
    lookupEntry (create_body "jd@example.com" "jd" "John" "Doe" none none none) "username" = some Json.null ∧
    lookupEntry (create_body "jd@example.com" "jd" "John" "Doe" none none none) "group_ids" = some Json.null ∧
    lookupEntry (create_body "jd@example.com" "jd" "John" "Doe" none none none) "permissions" = some Json.null := by
  obtain ⟨h1, h2, h3, h4⟩ := create_body_all_keys "jd@example.com" "jd" "John" "Doe" none none none
  exact ⟨h1, h2 rfl, h3 rfl, h4 rfl⟩

/-- C5: the query fields of the `GET /user/filter` request are the optional
scalar filters that were set (`group_id` then `is_active`), followed by exactly
one `("username", u)` parameter per element of the username list, in order;
in particular the `"username"`-keyed sublist is exactly that list. -/
theorem filter_query_fields_spec (group_id : Option String) (usernames : Option (List String))
    (is_active : Option Bool) :
    (filter_req group_id usernames is_active).fields =
      optEntry "group_id" (optStr group_id) ++ optEntry "is_active" (optBool is_active) ++
        ((usernames.getD []).map fun u => ("username", Json.str u)) ∧
    ((filter_req group_id usernames is_active).fields.filter fun kv => kv.1 == "username") =
      (usernames.getD []).map fun u => ("username", Json.str u) := by
  have hfields : (filter_req group_id usernames is_active).fields =
      optEntry "group_id" (optStr group_id) ++ optEntry "is_active" (optBool is_active) ++
        ((usernames.getD []).map fun u => ("username", Json.str u)) := by
    cases group_id <;> cases is_active <;>
      simp [filter_req, sent_query_fields, filter_fields, dropNullValues, List.filter_cons,
            optStr, optBool, optEntry, dropNullValues_username_map]
  refine ⟨hfields, ?_⟩
  rw [hfields]
  cases group_id <;> cases is_active <;>
    simp [optEntry, optStr, optBool, List.filter_append, List.filter_cons,
          filter_keeps_username_entries]

/-- C1: when the `/token/create` response has `is_challenge = true`,
`create_token` raises the `ValueError` whose message names the violated
expectation ("User was not confirmed") and tells the caller to use `confirm`
first, and returns no `Token`; when `is_challenge` is any other value, it
returns the `Token` built from the response's `authentication` object. -/
theorem create_token_challenge_spec (server : Request → Json) (username password : String)
    (v : Json)
    (h : (server (token_create_req username password)).subscript "is_challenge" = .ok v) :
    (v = .bool true →
      create_token server username password =
        .error (.valueError "User was not confirmed. Please confirm user first, before creating tokens. Hint: to confirm user, call \"ClientUser.confirm\" method.")) ∧
    (v ≠ .bool true → ∀ entries,
      (server (token_create_req username password)).subscript "authentication" = .ok (.obj entries) →
      create_token server username password = .ok ⟨entries⟩) := by
  constructor
  · intro hv
    subst hv
    simp [create_token, h, token_unconfirmed_msg]
  · intro hv entries hauth
    cases v with
    | bool b =>
      cases b with
      | true => exact absurd rfl hv
      | false => simp [create_token, h, hauth]
    | null => simp [create_token, h, hauth]
    | str s => simp [create_token, h, hauth]
    | num n => simp [create_token, h, hauth]
    | arr elems => simp [create_token, h, hauth]
    | obj entries2 => simp [create_token, h, hauth]

/-- C1 (witness): against `serverChallenge` the hypothesis holds at
`is_challenge = true` and `create_token` raises the designated error. -/
theorem create_token_challenge_spec_witness :
    (serverChallenge (token_create_req "john" "pw")).subscript "is_challenge" = .ok (.bool true) ∧
    create_token serverChallenge "john" "pw" =
      .error (.valueError "User was not confirmed. Please confirm user first, before creating tokens. Hint: to confirm user, call \"ClientUser.confirm\" method.") :=
  ⟨rfl, (create_token_challenge_spec serverChallenge "john" "pw" (.bool true) rfl).1 rfl⟩

/-- C4: when the initial `/token/create` response has `is_challenge = false`,
`confirm` issues no `/token/challenge` request: its request trace is exactly
the single initial `/token/create` request. -/
theorem confirm_no_challenge_single_request (server : Request → Json)
    (username tmp_password new_password : String)
    (h : (server (token_create_req username tmp_password)).subscript "is_challenge" = .ok (.bool false)) :
    (confirm_run server username tmp_password new_password).1 =
      [token_create_req username tmp_password] := by
  simp [confirm_run, h]

/-- C4 (witness): against `serverToken` (which answers `is_challenge = false`)
the trace of `confirm` is the single token-create request. -/
theorem confirm_no_challenge_single_request_witness :
    (serverToken (token_create_req "john" "tmp")).subscript "is_challenge" = .ok (.bool false) ∧
    (confirm_run serverToken "john" "tmp" "new").1 = [token_create_req "john" "tmp"] :=
  ⟨rfl, confirm_no_challenge_single_request serverToken "john" "tmp" "new" rfl⟩

/-- C9: on a successful `create`, the returned `User` takes
`preferred_username`, `email`, `first_name`, `last_name`, `group_ids` and
`permissions` verbatim from the caller-supplied arguments (possibly `None`)
and only `username` and `tmp_password` from the response JSON. -/
theorem create_returns_caller_fields (server : Request → Json)
    (email preferred_username first_name last_name : String)
    (username : Option String) (group_ids permissions : Option (List String)) (un tp : Json)
    (h1 : (server (create_req email preferred_username first_name last_name username group_ids permissions)).subscript "username" = .ok un)
    (h2 : (server (create_req email preferred_username first_name last_name username group_ids permissions)).subscript "tmp_password" = .ok tp) :
    create server email preferred_username first_name last_name username group_ids permissions =
      .ok { username := un, preferred_username := .str preferred_username, email := .str email,
            first_name := .str first_name, last_name := .str last_name,
            group_ids := optStrList group_ids, permissions := optStrList permissions,
            is_active := Json.null, tmp_password := tp } := by
  simp [create, h1, h2, Bind.bind, Except.bind, Pure.pure, Except.pure]

/-- C9 (witness): a concrete `create` call against `serverCreated` returns the
arguments in the argument-backed fields and the response values in `username`
and `tmp_password`. -/
theorem create_returns_caller_fields_witness :
    (serverCreated (create_req "jd@example.com" "jd" "John" "Doe" none (some ["g1"]) none)).subscript "username" = .ok (.str "gen-john") ∧
    (serverCreated (create_req "jd@example.com" "jd" "John" "Doe" none (some ["g1"]) none)).subscript "tmp_password" = .ok (.str "tmp123") ∧
    create serverCreated "jd@example.com" "jd" "John" "Doe" none (some ["g1"]) none =
      .ok { username := .str "gen-john", preferred_username := .str "jd", email := .str "jd@example.com",
            first_name := .str "John", last_name := .str "Doe", group_ids := .arr [.str "g1"],
            permissions := Json.null, is_active := Json.null, tmp_password := .str "tmp123" } :=
  ⟨rfl, rfl,
    create_returns_caller_fields serverCreated "jd@example.com" "jd" "John" "Doe"
      none (some ["g1"]) none (.str "gen-john") (.str "tmp123") rfl rfl⟩

theorem confirm_run_snd_eq (server : Request → Json) (username tmp_password new_password : String)
    (j : Json) (h : confirm_final_json server username tmp_password new_password = .ok j) :
    (confirm_run server username tmp_password new_password).2 = confirm_check j := by
  unfold confirm_final_json at h
  unfold confirm_run
  cases hic : (server (token_create_req username tmp_password)).subscript "is_challenge" with
  | error e => simp [hic] at h
  | ok v =>
    cases v with
    | bool b =>
      cases b with
      | true =>
        cases hch : (server (token_create_req username tmp_password)).subscript "challenge" with
        | error e => simp [hic, hch] at h
        | ok challenge =>
          cases hcn : challenge.subscript "challenge_name" with
          | error e => simp [hic, hch, hcn] at h
          | ok cname =>
            cases hcs : challenge.subscript "session" with
            | error e => simp [hic, hch, hcn, hcs] at h
            | ok csession =>
              simp only [hic, hch, hcn, hcs] at h ⊢
              simp only [Except.ok.injEq] at h
              rw [h]
      | false =>
        simp only [hic] at h ⊢
        simp only [Except.ok.injEq] at h
        rw [h]
    | null =>
      simp only [hic] at h ⊢
      simp only [Except.ok.injEq] at h
      rw [h]
    | str s =>
      simp only [hic] at h ⊢
      simp only [Except.ok.injEq] at h
      rw [h]
    | num n =>
      simp only [hic] at h ⊢
      simp only [Except.ok.injEq] at h
      rw [h]
    | arr elems =>
      simp only [hic] at h ⊢
      simp only [Except.ok.injEq] at h
      rw [h]
    | obj entries =>
      simp only [hic] at h ⊢
      simp only [Except.ok.injEq] at h
      rw [h]

/-- C2: when the final token JSON of the `confirm` flow contains no access
token (the guarded lookups find none), `confirm` raises the `ValueError`
whose message names the violated expectation (access token not created, user
probably not confirmed) and the remedial action (try again or contact
administrators); and `confirm` never returns normally unless an access token
was present in that final JSON. -/
theorem confirm_no_access_token_raises (server : Request → Json)
    (username tmp_password new_password : String) (j : Json)
    (hj : confirm_final_json server username tmp_password new_password = .ok j) :
    (extract_access_token j = .ok none →
      (confirm_run server username tmp_password new_password).2 =
        .error (.valueError "Something went wrong. Access token was not created, hence, the new user probably was not confirmed. Please try again, or contact administrators.")) ∧
    ((confirm_run server username tmp_password new_password).2 = .ok () →
      has_access_token j) := by
  have hrun := confirm_run_snd_eq server username tmp_password new_password j hj
  constructor
  · intro hex
    rw [hrun]
    simp [confirm_check, hex, pyTruthy, confirm_fail_msg]
  · intro hok
    rw [hrun] at hok
    unfold confirm_check at hok
    cases hex : extract_access_token j with
    | error e => simp [hex] at hok
    | ok tok =>
      rw [hex] at hok
      cases tok with
      | none => simp [pyTruthy] at hok
      | some v =>
        by_cases htr : pyTruthy v = true
        · exact ⟨v, hex, htr⟩
        · simp [htr] at hok

/-- C2 (witness): against `serverNoAuth` the final JSON has no access token
and `confirm` raises the designated error. -/
theorem confirm_no_access_token_raises_witness :
    confirm_final_json serverNoAuth "john" "tmp" "new" = .ok noAuthResponse ∧
    extract_access_token noAuthResponse = .ok none ∧
    (confirm_run serverNoAuth "john" "tmp" "new").2 =
      .error (.valueError "Something went wrong. Access token was not created, hence, the new user probably was not confirmed. Please try again, or contact administrators.") :=
  ⟨rfl, rfl,
    (confirm_no_access_token_raises serverNoAuth "john" "tmp" "new" noAuthResponse rfl).1 rfl⟩

/-- C10: with the final token JSON's access token (when reachable) a string,
`confirm` returns normally exactly when that JSON holds a non-empty
`access_token` under its `authentication` object; a missing `authentication`
key, a missing `access_token` key, and an empty-string access token each
raise the confirmation-failure `ValueError`. -/
theorem confirm_ok_iff_access_token (server : Request → Json)
    (username tmp_password new_password : String) (j : Json)
    (hj : confirm_final_json server username tmp_password new_password = .ok j)
    (hty : ∀ v, extract_access_token j = .ok (some v) → ∃ s, v = .str s) :
    ((confirm_run server username tmp_password new_password).2 = .ok () ↔
      ∃ s, extract_access_token j = .ok (some (.str s)) ∧ s ≠ "") ∧
    (j.subscript "authentication" = .error (.keyError "authentication") →
      (confirm_run server username tmp_password new_password).2 =
        .error (.valueError "Something went wrong. Access token was not created, hence, the new user probably was not confirmed. Please try again, or contact administrators.")) ∧
    (∀ auth, j.subscript "authentication" = .ok auth →
      auth.subscript "access_token" = .error (.keyError "access_token") →
      (confirm_run server username tmp_password new_password).2 =
        .error (.valueError "Something went wrong. Access token was not created, hence, the new user probably was not confirmed. Please try again, or contact administrators.")) ∧
    (∀ auth, j.subscript "authentication" = .ok auth →
      auth.subscript "access_token" = .ok (.str "") →
      (confirm_run server username tmp_password new_password).2 =
        .error (.valueError "Something went wrong. Access token was not created, hence, the new user probably was not confirmed. Please try again, or contact administrators.")) := by
  have hrun := confirm_run_snd_eq server username tmp_password new_password j hj
  rw [hrun]
  refine ⟨⟨fun hok => ?_, fun hex => ?_⟩, fun hauth => ?_, fun auth hauth hat => ?_,
    fun auth hauth hat => ?_⟩
  · unfold confirm_check at hok
    cases hex : extract_access_token j with
    | error e => simp [hex] at hok
    | ok tok =>
      rw [hex] at hok
      cases tok with
      | none => simp [pyTruthy] at hok
      | some v =>
        obtain ⟨s, rfl⟩ := hty v hex
        by_cases hs : s = ""
        · subst hs
          simp [pyTruthy] at hok
          exact absurd hok (by decide)
        · exact ⟨s, rfl, hs⟩
  · obtain ⟨s, hex, hs⟩ := hex
    simp [confirm_check, hex, pyTruthy, String.isEmpty_iff, hs]
  · have hex : extract_access_token j = .ok none := by
      simp [extract_access_token, hauth]
    simp [confirm_check, hex, pyTruthy, confirm_fail_msg]
  · have hex : extract_access_token j = .ok none := by
      simp [extract_access_token, hauth, hat]
    simp [confirm_check, hex, pyTruthy, confirm_fail_msg]
  · have hex : extract_access_token j = .ok (some (.str "")) := by
      simp [extract_access_token, hauth, hat]
    have hempty : "".isEmpty = true := by decide
    simp [confirm_check, hex, pyTruthy, confirm_fail_msg, hempty]

/-- C10 (witness): against `serverToken` the typedness hypothesis holds and
`confirm` returns normally, with the non-empty token `"tok"` present. -/
theorem confirm_ok_iff_access_token_witness :
    confirm_final_json serverToken "john" "tmp" "new" = .ok tokenResponse ∧
    extract_access_token tokenResponse = .ok (some (.str "tok")) ∧
    (confirm_run serverToken "john" "tmp" "new").2 = .ok () := by
  have hty : ∀ v, extract_access_token tokenResponse = .ok (some v) → ∃ s, v = .str s := by
    intro v h
    simp only [show extract_access_token tokenResponse = .ok (some (.str "tok")) from rfl,
      Except.ok.injEq, Option.some.injEq] at h
    exact ⟨"tok", h.symm⟩
  have h := confirm_ok_iff_access_token serverToken "john" "tmp" "new" tokenResponse rfl hty
  exact ⟨rfl, rfl, h.1.mpr ⟨"tok", rfl, by decide⟩⟩

/-- C6: when `create` succeeds and a subsequent `get` of the created username
succeeds with the server returning the stored record (the same identity
fields that `create` sent and the generated username), the two returned
`User`s agree on username, email, preferred_username, first_name and
last_name. -/
theorem create_get_round_trip (server : Request → Json)
    (email preferred_username first_name last_name : String)
    (username : Option String) (group_ids permissions : Option (List String))
    (created_username : String) (tp g2 pm2 ia2 : Json) (u1 u2 : User)
    (h1 : (server (create_req email preferred_username first_name last_name username group_ids permissions)).subscript "username" = .ok (.str created_username))
    (h2 : (server (create_req email preferred_username first_name last_name username group_ids permissions)).subscript "tmp_password" = .ok tp)
    (hg : (server (get_req created_username)).subscript "group_ids" = .ok g2)
    (hun : (server (get_req created_username)).subscript "username" = .ok (.str created_username))
    (hpu : (server (get_req created_username)).subscript "preferred_username" = .ok (.str preferred_username))
    (hem : (server (get_req created_username)).subscript "email" = .ok (.str email))
    (hfn : (server (get_req created_username)).subscript "first_name" = .ok (.str first_name))
    (hln : (server (get_req created_username)).subscript "last_name" = .ok (.str last_name))
    (hpm : (server (get_req created_username)).subscript "permissions" = .ok pm2)
    (hia : (server (get_req created_username)).subscript "is_active" = .ok ia2)
    (hc : create server email preferred_username first_name last_name username group_ids permissions = .ok u1)
    (hgx : get server created_username = .ok u2) :
    u2.username = u1.username ∧ u2.email = u1.email ∧
    u2.preferred_username = u1.preferred_username ∧
    u2.first_name = u1.first_name ∧ u2.last_name = u1.last_name := by
  have hcreate : create server email preferred_username first_name last_name username group_ids permissions =
      .ok { username := .str created_username, preferred_username := .str preferred_username,
            email := .str email, first_name := .str first_name, last_name := .str last_name,
            group_ids := optStrList group_ids, permissions := optStrList permissions,
            is_active := Json.null, tmp_password := tp } := by
    simp [create, h1, h2, Bind.bind, Except.bind, Pure.pure, Except.pure]
  have hget : get server created_username =
      .ok { username := .str created_username, preferred_username := .str preferred_username,
            email := .str email, first_name := .str first_name, last_name := .str last_name,
            group_ids := g2, permissions := pm2, is_active := ia2, tmp_password := Json.null } := by
    simp [get, hg, hun, hpu, hem, hfn, hln, hpm, hia, Bind.bind, Except.bind, Pure.pure, Except.pure]
  rw [hcreate] at hc
  rw [hget] at hgx
  have hu1 := Except.ok.inj hc
  have hu2 := Except.ok.inj hgx
  rw [← hu1, ← hu2]
  exact ⟨rfl, rfl, rfl, rfl, rfl⟩

/-- C6 (witness): the round trip against `serverRoundTrip` at a concrete
create call yields matching identity fields. -/
theorem create_get_round_trip_witness :
    create serverRoundTrip "jd@example.com" "jd" "John" "Doe" none (some ["g1"]) none =
      .ok { username := .str "john", preferred_username := .str "jd", email := .str "jd@example.com",
            first_name := .str "John", last_name := .str "Doe", group_ids := .arr [.str "g1"],
            permissions := Json.null, is_active := Json.null, tmp_password := .str "tmp123" } ∧
    get serverRoundTrip "john" =
      .ok { username := .str "john", preferred_username := .str "jd", email := .str "jd@example.com",
            first_name := .str "John", last_name := .str "Doe", group_ids := .arr [.str "g1"],
            permissions := .arr [], is_active := .bool true, tmp_password := Json.null } ∧
    ({ username := .str "john", preferred_username := .str "jd", email := .str "jd@example.com",
       first_name := .str "John", last_name := .str "Doe", group_ids := .arr [.str "g1"],
       permissions := .arr [], is_active := .bool true, tmp_password := Json.null } : User).username =
      ({ username := .str "john", preferred_username := .str "jd", email := .str "jd@example.com",
         first_name := .str "John", last_name := .str "Doe", group_ids := .arr [.str "g1"],
         permissions := Json.null, is_active := Json.null, tmp_password := .str "tmp123" } : User).username := by
  refine ⟨rfl, rfl, ?_⟩
  exact (create_get_round_trip serverRoundTrip "jd@example.com" "jd" "John" "Doe"
    none (some ["g1"]) none "john" (.str "tmp123") (.arr [.str "g1"]) (.arr []) (.bool true)
    _ _ rfl rfl rfl rfl rfl rfl rfl rfl rfl rfl rfl rfl).1

theorem filter_parse_entries_defaults (es : List (String × Json)) :
    ∀ users, filter_parse_entries es = .ok users →
      ∀ p ∈ users, p.2.permissions = Json.null ∧ p.2.is_active = Json.null ∧
        p.2.tmp_password = Json.null := by
  induction es with
  | nil =>
    intro users h p hp
    simp only [filter_parse_entries, Except.ok.injEq] at h
    subst h
    simp at hp
  | cons kv rest ih =>
    intro users h p hp
    obtain ⟨username, user_dict⟩ := kv
    simp only [filter_parse_entries, Bind.bind, Except.bind] at h
    cases hg : user_dict.subscript "group_ids" with
    | error e => rw [hg] at h; cases h
    | ok g =>
      rw [hg] at h
      cases hun : user_dict.subscript "username" with
      | error e => rw [hun] at h; cases h
      | ok un =>
        rw [hun] at h
        cases hpu : user_dict.subscript "preferred_username" with
        | error e => rw [hpu] at h; cases h
        | ok pu =>
          rw [hpu] at h
          cases hem : user_dict.subscript "email" with
          | error e => rw [hem] at h; cases h
          | ok em =>
            rw [hem] at h
            cases hfn : user_dict.subscript "first_name" with
            | error e => rw [hfn] at h; cases h
            | ok fn =>
              rw [hfn] at h
              cases hln : user_dict.subscript "last_name" with
              | error e => rw [hln] at h; cases h
              | ok ln =>
                rw [hln] at h
                cases hrest : filter_parse_entries rest with
                | error e => rw [hrest] at h; cases h
                | ok users2 =>
                  rw [hrest] at h
                  simp only [Pure.pure, Except.pure, Except.ok.injEq] at h
                  subst h
                  rcases List.mem_cons.mp hp with hp1 | hp2
                  · subst hp1
                    exact ⟨rfl, rfl, rfl⟩
                  · exact ih users2 hrest p hp2

/-- C7 (counterexample): a `filter` response does not yield `User`s carrying
group membership fields only: on `filterResponse` the parsed `User` has its
`email` (an identity field outside group membership) populated with the
response value, not left unset. -/
theorem filter_populates_identity_fields :
    filter_parse filterResponse = .ok [("jdoe", userJdoe)] ∧
    userJdoe.email = Json.str "jd@example.com" ∧
    Json.str "jd@example.com" ≠ Json.null :=
  ⟨rfl, rfl, fun h => Json.noConfusion h⟩

/-- C7 (amended): `filter` returns a username-keyed mapping of partial
`User`s populated with `group_ids` and the identity fields from the response;
the fields `filter` never passes to the constructor — `permissions`,
`is_active` and `tmp_password` — are left unpopulated (`None`) in every
returned `User`. -/
theorem filter_users_unpopulated_fields (response : Json) (users : List (String × User))
    (h : filter_parse response = .ok users) :
    ∀ p ∈ users, p.2.permissions = Json.null ∧ p.2.is_active = Json.null ∧
      p.2.tmp_password = Json.null := by
  cases response with
  | obj entries => exact filter_parse_entries_defaults entries users h
  | null => cases h
  | bool b => cases h
  | str s => cases h
  | num n => cases h
  | arr elems => cases h

/-- C7 (witness): on the concrete response `filterResponse` the parsed user
has `permissions`, `is_active` and `tmp_password` unpopulated. -/
theorem filter_users_unpopulated_fields_witness :
    filter_parse filterResponse = .ok filterUsers ∧
    (userJdoe.permissions = Json.null ∧ userJdoe.is_active = Json.null ∧
      userJdoe.tmp_password = Json.null) :=
  ⟨rfl,
    filter_users_unpopulated_fields filterResponse filterUsers rfl ("jdoe", userJdoe)
      (List.mem_cons_self _ _)⟩

end Authena
